import Mathlib

/-!
Shallow embedding of the `CryptoWebSocket` client (src: lib/websocket module).

The class owns a transport handle (`ws`), a subscription registry
(`subscribers : Map<string, callback>`), an ordered list of status observers
(`statusCallbacks`), a connection state (`currentState`), a reconnect attempt
counter, and a heartbeat interval timer handle.

Modelling decisions, each traceable to the source:
- Callbacks are opaque to the client; the client only stores them and invokes
  them. We model a callback as an identity token (`Nat`, JS reference
  identity) and model its behaviour (whether a given invocation throws) by an
  environment function passed to every operation that invokes callbacks
  (`raises` for status callbacks, `tickSem` for ticker callbacks).
- Side effects (`ws.send`, `setTimeout`, `setInterval`, `clearInterval`,
  `console.error`, callback invocations) are collected in an effect trace.
- Interval timers live in a `Timers` environment: `setInterval` allocates a
  fresh id and marks it active, `clearInterval` deactivates an id. The field
  `heartbeatInterval` stores the id exactly as the source stores the handle
  (the source never nulls it on clear, and neither do we).
- A handler body that can throw returns an `exn : Option String`; a thrown
  exception leaves the object fields as they were at the throw point.
- `JSON.parse` of an inbound frame is modelled by `Frame`: `malformed` is a
  payload on which `JSON.parse` throws; `parsed` carries the fields the
  handler reads, each `Option` (absent property reads as `undefined`).
-/

namespace CryptoWS

/-- Connection states, from the `WebSocketState` enum. -/
inductive WebSocketState where
  | CONNECTING
  | CONNECTED
  | DISCONNECTED
  | ERROR
  | RECONNECTING
deriving DecidableEq, Repr

/-- Transport readyState values of the host `WebSocket` object. -/
inductive ReadyState where
  | CONNECTING
  | OPEN
  | CLOSING
  | CLOSED
deriving DecidableEq, Repr

/-- The ticker data object passed to subscriber callbacks (interface
`TickerData`). Every field is the raw property read off the parsed frame, so
each is optional (`undefined` when absent on the wire). -/
structure TickerData where
  price : Option String
  time : Option String
  product_id : Option String
  volume_24h : Option String
  low_24h : Option String
  high_24h : Option String
  open_24h : Option String
deriving DecidableEq, Repr

/-- Outbound wire messages. The JSON envelope
`channels: [ name: ticker, product_ids: ... ]` is a fixed shape; the variable
content is the message kind and the product id list. -/
inductive OutMsg where
  | subscribeMsg (product_ids : List String)
  | unsubscribeMsg (product_ids : List String)
  | heartbeatMsg
deriving DecidableEq, Repr

/-- Observable side effects of one synchronous run of client code. -/
inductive Effect where
  | send (msg : OutMsg)
  | openTransport
  | closeTransport
  | scheduleConnect (delayMs : Nat)
  | setHeartbeat (id : Nat) (periodMs : Nat)
  | clearHeartbeat (id : Nat)
  | invokeTicker (cb : Nat) (d : TickerData)
  | invokeStatus (cb : Nat) (st : WebSocketState)
  | reportError (context : String)
deriving DecidableEq, Repr

/-- A parsed-or-not inbound frame. `malformed` stands for any payload on
which `JSON.parse` throws; `parsed` carries the properties the `onmessage`
handler reads from the parsed value. -/
inductive Frame where
  | malformed
  | parsed (type : Option String) (product_id : Option String)
      (price : Option String) (time : Option String)
      (volume_24h : Option String) (low_24h : Option String)
      (high_24h : Option String) (open_24h : Option String)
deriving DecidableEq, Repr

/-- JS `Map.set`: replace the value at an existing key in place, otherwise
append a new entry at the end. -/
def mapSet : List (String × Nat) → String → Nat → List (String × Nat)
  | [], k, v => [(k, v)]
  | (k1, v1) :: rest, k, v =>
      if k1 = k then (k, v) :: rest else (k1, v1) :: mapSet rest k v

/-- JS `Map.delete`: remove the entry with the given key (keys in a JS map
are unique, so removing every occurrence is the same operation). -/
def mapDelete (m : List (String × Nat)) (k : String) : List (String × Nat) :=
  m.filter (fun e => e.1 ≠ k)

/-- JS `Map.get`. -/
def mapGet : List (String × Nat) → String → Option Nat
  | [], _ => none
  | (k1, v) :: rest, k => if k1 = k then some v else mapGet rest k

/-- Keys of the registry in insertion order (`Array.from(map.keys())`). -/
def mapKeys (m : List (String × Nat)) : List String :=
  m.map Prod.fst

/-- Host interval-timer environment: `setInterval` allocates the next fresh
id and activates it; `clearInterval` deactivates an id. -/
structure Timers where
  nextId : Nat
  active : List Nat
deriving DecidableEq, Repr

def clearIntervalT (t : Timers) (id : Nat) : Timers :=
  { t with active := t.active.filter (fun x => x ≠ id) }

def setIntervalT (t : Timers) : Nat × Timers :=
  (t.nextId, { nextId := t.nextId + 1, active := t.active ++ [t.nextId] })

/-- The mutable fields of a `CryptoWebSocket` instance. `ws` is the transport
handle abstracted to its readyState (`none` = field is null). -/
structure Client where
  ws : Option ReadyState
  subscribers : List (String × Nat)
  statusCallbacks : List Nat
  currentState : WebSocketState
  reconnectAttempts : Nat
  heartbeatInterval : Option Nat
deriving DecidableEq, Repr

def maxReconnectAttempts : Nat := 5

def reconnectDelay : Nat := 1000

/-- Field initializers of the class. -/
def initClient : Client :=
  { ws := none
    subscribers := []
    statusCallbacks := []
    currentState := WebSocketState.CONNECTING
    reconnectAttempts := 0
    heartbeatInterval := none }

/-- Client plus the host timer environment. -/
structure Sys where
  client : Client
  timers : Timers
deriving DecidableEq, Repr

/-- The effects of invoking one status callback inside the
`try/catch` of `updateStatus`: the callback is invoked, and if it throws the
exception is caught and reported via `console.error`. -/
def notifyOne (raises : Nat → WebSocketState → Bool) (st : WebSocketState)
    (cb : Nat) : List Effect :=
  Effect.invokeStatus cb st ::
    (if raises cb st then [Effect.reportError "Error in status callback:"] else [])

/-- `updateStatus(newState)`: store the new state, then invoke every
registered status callback with `this.currentState` (already the new state),
catching and reporting any exception so that later callbacks still run. -/
def updateStatus (raises : Nat → WebSocketState → Bool) (s : Client)
    (newState : WebSocketState) : Client × List Effect :=
  let s1 := { s with currentState := newState }
  (s1, s1.statusCallbacks.flatMap (notifyOne raises s1.currentState))

/-- `startHeartbeat()`: clear any prior interval (the stored handle is not
nulled), then install a fresh 30000 ms interval and store its handle. -/
def startHeartbeat (s : Client) (t : Timers) : Client × Timers × List Effect :=
  let cleared : Timers × List Effect :=
    match s.heartbeatInterval with
    | some id => (clearIntervalT t id, [Effect.clearHeartbeat id])
    | none => (t, [])
  let fresh := setIntervalT cleared.1
  ({ s with heartbeatInterval := some fresh.1 }, fresh.2,
    cleared.2 ++ [Effect.setHeartbeat fresh.1 30000])

/-- `handleReconnect()`: below the cap, bump the counter, go to
`RECONNECTING` and schedule `connect` after `reconnectDelay * attempts` ms;
at the cap, only force the state to `DISCONNECTED` if it is not already. -/
def handleReconnect (raises : Nat → WebSocketState → Bool) (s : Client) :
    Client × List Effect :=
  if s.reconnectAttempts < maxReconnectAttempts then
    let s1 := { s with reconnectAttempts := s.reconnectAttempts + 1 }
    let r := updateStatus raises s1 WebSocketState.RECONNECTING
    (r.1, r.2 ++ [Effect.scheduleConnect (reconnectDelay * s1.reconnectAttempts)])
  else
    if s.currentState ≠ WebSocketState.DISCONNECTED then
      updateStatus raises s WebSocketState.DISCONNECTED
    else
      (s, [])

/-- `subscribeToProducts()`: when the transport is open and the registry is
nonempty, send one batched subscribe message listing every registry key. -/
def subscribeToProducts (s : Client) : List Effect :=
  if s.ws = some ReadyState.OPEN then
    let products := mapKeys s.subscribers
    if products.length > 0 then [Effect.send (OutMsg.subscribeMsg products)]
    else []
  else []

/-- The `ws.onopen` handler. The transport readyState is `OPEN` by the time
the event is dispatched. -/
def onopen (raises : Nat → WebSocketState → Bool) (sys : Sys) :
    Sys × List Effect :=
  let s0 := { sys.client with ws := some ReadyState.OPEN }
  let r1 := updateStatus raises s0 WebSocketState.CONNECTED
  let s2 := { r1.1 with reconnectAttempts := 0 }
  let e2 := subscribeToProducts s2
  let r3 := startHeartbeat s2 sys.timers
  (⟨r3.1, r3.2.1⟩, r1.2 ++ e2 ++ r3.2.2)

/-- JS truthiness of the `data.product_id` property (`undefined` and the
empty string are falsy). -/
def truthyStr : Option String → Bool
  | none => false
  | some s => decide (s ≠ "")

/-- Result of one run of the `onmessage` handler body: the fields of the
object at return or throw point, the effects so far, and the uncaught
exception if one escaped. -/
structure MsgResult where
  client : Client
  effects : List Effect
  exn : Option String
deriving DecidableEq, Repr

/-- The `ws.onmessage` handler. `JSON.parse` throws on a malformed payload;
there is no try/catch in the handler, so that exception, and any exception a
ticker callback throws, escapes the handler. No field is ever written. -/
def onmessage (tickSem : Nat → TickerData → Bool) (s : Client) (f : Frame) :
    MsgResult :=
  match f with
  | Frame.malformed => ⟨s, [], some "SyntaxError: JSON.parse"⟩
  | Frame.parsed ty pid price time v24 l24 h24 o24 =>
      if ty = some "ticker" then
        if truthyStr pid then
          match pid with
          | some p =>
              match mapGet s.subscribers p with
              | some cb =>
                  let d : TickerData :=
                    ⟨price, time, some p, v24, l24, h24, o24⟩
                  if tickSem cb d then
                    ⟨s, [Effect.invokeTicker cb d], some "Error in ticker callback"⟩
                  else
                    ⟨s, [Effect.invokeTicker cb d], none⟩
              | none => ⟨s, [], none⟩
          | none => ⟨s, [], none⟩
        else ⟨s, [], none⟩
      else ⟨s, [], none⟩

/-- The `ws.onerror` handler: report and go to `ERROR`. It neither closes
the transport nor touches the heartbeat timer; the close event owns that. -/
def onerror (raises : Nat → WebSocketState → Bool) (sys : Sys) :
    Sys × List Effect :=
  let r := updateStatus raises sys.client WebSocketState.ERROR
  (⟨r.1, sys.timers⟩, Effect.reportError "WebSocket Error:" :: r.2)

/-- The `ws.onclose` handler: clear the heartbeat interval (handle not
nulled), transition to `DISCONNECTED`, then run the reconnect path. The
transport readyState is `CLOSED` by the time the event is dispatched. -/
def onclose (raises : Nat → WebSocketState → Bool) (sys : Sys) :
    Sys × List Effect :=
  let s0 := { sys.client with ws := some ReadyState.CLOSED }
  let cleared : Timers × List Effect :=
    match s0.heartbeatInterval with
    | some id => (clearIntervalT sys.timers id, [Effect.clearHeartbeat id])
    | none => (sys.timers, [])
  let r1 := updateStatus raises s0 WebSocketState.DISCONNECTED
  let r2 := handleReconnect raises r1.1
  (⟨r2.1, cleared.1⟩, cleared.2 ++ r1.2 ++ r2.2)

/-- `connect()`: move to `CONNECTING` unless reconnecting, then construct the
transport. `ctorThrows` says whether `new WebSocket(url)` throws
synchronously; on a throw the handler reports, goes to `ERROR` and runs the
reconnect path. -/
def connect (raises : Nat → WebSocketState → Bool) (ctorThrows : Bool)
    (sys : Sys) : Sys × List Effect :=
  let s := sys.client
  let r0 :=
    if s.currentState ≠ WebSocketState.RECONNECTING then
      updateStatus raises s WebSocketState.CONNECTING
    else (s, [])
  if ctorThrows then
    let r1 := updateStatus raises r0.1 WebSocketState.ERROR
    let r2 := handleReconnect raises r1.1
    (⟨r2.1, sys.timers⟩,
      r0.2 ++ [Effect.reportError "WebSocket Connection Error:"] ++ r1.2 ++ r2.2)
  else
    (⟨{ r0.1 with ws := some ReadyState.CONNECTING }, sys.timers⟩,
      r0.2 ++ [Effect.openTransport])

/-- `subscribe(productId, callback)` up to returning the handle: register
(replacing any callback already under that key) and, if the transport is
open, send a single-topic subscribe message. -/
def subscribe (s : Client) (productId : String) (cb : Nat) :
    Client × List Effect :=
  let s1 := { s with subscribers := mapSet s.subscribers productId cb }
  if s1.ws = some ReadyState.OPEN then
    (s1, [Effect.send (OutMsg.subscribeMsg [productId])])
  else (s1, [])

/-- The closure returned by `subscribe`: it captured `productId` only. It
deletes that key and, whenever the transport is open, sends an unsubscribe
message for it — on every invocation. -/
def unsubHandle (s : Client) (productId : String) : Client × List Effect :=
  let s1 := { s with subscribers := mapDelete s.subscribers productId }
  if s1.ws = some ReadyState.OPEN then
    (s1, [Effect.send (OutMsg.unsubscribeMsg [productId])])
  else (s1, [])

/-- `onStatusChange(callback)`: append the callback unless already present
(reference identity), then immediately invoke it with the current state
inside a try/catch. -/
def onStatusChange (raises : Nat → WebSocketState → Bool) (s : Client)
    (cb : Nat) : Client × List Effect :=
  let s1 :=
    if s.statusCallbacks.contains cb then s
    else { s with statusCallbacks := s.statusCallbacks ++ [cb] }
  (s1, Effect.invokeStatus cb s1.currentState ::
    (if raises cb s1.currentState then
      [Effect.reportError "Error in initial status callback:"] else []))

/-- `offStatusChange(callback)`: remove by identity. -/
def offStatusChange (s : Client) (cb : Nat) : Client :=
  { s with statusCallbacks := s.statusCallbacks.filter (fun c => c ≠ cb) }

/-- `close()`: clear the heartbeat interval (handle not nulled), and if a
transport exists, saturate the attempt counter and close the transport. -/
def close (s : Client) (t : Timers) : Client × Timers × List Effect :=
  let cleared : Timers × List Effect :=
    match s.heartbeatInterval with
    | some id => (clearIntervalT t id, [Effect.clearHeartbeat id])
    | none => (t, [])
  match s.ws with
  | some _ =>
      ({ s with reconnectAttempts := maxReconnectAttempts,
                ws := some ReadyState.CLOSING },
        cleared.1, cleared.2 ++ [Effect.closeTransport])
  | none => (s, cleared.1, cleared.2)

/-- `getCurrentState()`. -/
def getCurrentState (s : Client) : WebSocketState :=
  s.currentState

/-! ### Projections of effect traces -/

/-- Delays of the `setTimeout(connect, _)` calls in a trace. -/
def schedulesOf (effs : List Effect) : List Nat :=
  effs.filterMap (fun e =>
    match e with
    | Effect.scheduleConnect d => some d
    | _ => none)

/-- Product-id lists of the subscribe messages sent in a trace. -/
def subSendsOf (effs : List Effect) : List (List String) :=
  effs.filterMap (fun e =>
    match e with
    | Effect.send (OutMsg.subscribeMsg ids) => some ids
    | _ => none)

/-- Status-callback invocations in a trace, in order. -/
def statusInvokesOf (effs : List Effect) : List (Nat × WebSocketState) :=
  effs.filterMap (fun e =>
    match e with
    | Effect.invokeStatus cb st => some (cb, st)
    | _ => none)

theorem schedulesOf_append (a b : List Effect) :
    schedulesOf (a ++ b) = schedulesOf a ++ schedulesOf b :=
  List.filterMap_append a b _

theorem subSendsOf_append (a b : List Effect) :
    subSendsOf (a ++ b) = subSendsOf a ++ subSendsOf b :=
  List.filterMap_append a b _

theorem statusInvokesOf_append (a b : List Effect) :
    statusInvokesOf (a ++ b) = statusInvokesOf a ++ statusInvokesOf b :=
  List.filterMap_append a b _

theorem schedulesOf_notifyOne (raises : Nat → WebSocketState → Bool)
    (st : WebSocketState) (cb : Nat) :
    schedulesOf (notifyOne raises st cb) = [] := by
  by_cases h : raises cb st <;> simp [notifyOne, schedulesOf, h]

theorem subSendsOf_notifyOne (raises : Nat → WebSocketState → Bool)
    (st : WebSocketState) (cb : Nat) :
    subSendsOf (notifyOne raises st cb) = [] := by
  by_cases h : raises cb st <;> simp [notifyOne, subSendsOf, h]

theorem statusInvokesOf_notifyOne (raises : Nat → WebSocketState → Bool)
    (st : WebSocketState) (cb : Nat) :
    statusInvokesOf (notifyOne raises st cb) = [(cb, st)] := by
  by_cases h : raises cb st <;> simp [notifyOne, statusInvokesOf, h]

theorem schedulesOf_updateStatus (raises : Nat → WebSocketState → Bool)
    (s : Client) (ns : WebSocketState) :
    schedulesOf (updateStatus raises s ns).2 = [] := by
  show schedulesOf (s.statusCallbacks.flatMap (notifyOne raises ns)) = []
  induction s.statusCallbacks with
  | nil => rfl
  | cons c cs ih =>
      rw [List.flatMap_cons, schedulesOf_append, schedulesOf_notifyOne, ih]
      rfl

theorem subSendsOf_updateStatus (raises : Nat → WebSocketState → Bool)
    (s : Client) (ns : WebSocketState) :
    subSendsOf (updateStatus raises s ns).2 = [] := by
  show subSendsOf (s.statusCallbacks.flatMap (notifyOne raises ns)) = []
  induction s.statusCallbacks with
  | nil => rfl
  | cons c cs ih =>
      rw [List.flatMap_cons, subSendsOf_append, subSendsOf_notifyOne, ih]
      rfl

theorem statusInvokesOf_updateStatus (raises : Nat → WebSocketState → Bool)
    (s : Client) (ns : WebSocketState) :
    statusInvokesOf (updateStatus raises s ns).2 =
      s.statusCallbacks.map (fun cb => (cb, ns)) := by
  show statusInvokesOf (s.statusCallbacks.flatMap (notifyOne raises ns)) = _
  induction s.statusCallbacks with
  | nil => rfl
  | cons c cs ih =>
      rw [List.flatMap_cons, statusInvokesOf_append, statusInvokesOf_notifyOne, ih,
        List.map_cons, List.singleton_append]

/-! ### Registry map lemmas -/

theorem mapGet_mapSet_self (m : List (String × Nat)) (k : String) (v : Nat) :
    mapGet (mapSet m k v) k = some v := by
  induction m with
  | nil => simp [mapSet, mapGet]
  | cons e rest ih =>
      by_cases h : e.1 = k
      · simp [mapSet, h, mapGet]
      · simpa [mapSet, h, mapGet] using ih

theorem mapGet_mapDelete_self (m : List (String × Nat)) (k : String) :
    mapGet (mapDelete m k) k = none := by
  induction m with
  | nil => rfl
  | cons e rest ih =>
      by_cases h : e.1 = k
      · simpa [mapDelete, h] using ih
      · simpa [mapDelete, mapGet, h] using ih

theorem mapDelete_mapDelete (m : List (String × Nat)) (k : String) :
    mapDelete (mapDelete m k) k = mapDelete m k := by
  simp [mapDelete, List.filter_filter]

theorem mem_mapKeys_mapSet (m : List (String × Nat)) (k : String) (v : Nat)
    (x : String) : x ∈ mapKeys (mapSet m k v) ↔ x = k ∨ x ∈ mapKeys m := by
  induction m with
  | nil => simp [mapSet, mapKeys]
  | cons e rest ih =>
      by_cases h : e.1 = k
      · subst h
        simp [mapSet, mapKeys]
      · simp only [mapSet, h, if_false, mapKeys, List.map_cons, List.mem_cons] at ih ⊢
        rw [ih]
        tauto

theorem nodup_mapKeys_mapSet (m : List (String × Nat)) (k : String) (v : Nat)
    (h : (mapKeys m).Nodup) : (mapKeys (mapSet m k v)).Nodup := by
  induction m with
  | nil => simp [mapSet, mapKeys]
  | cons e rest ih =>
      simp only [mapKeys, List.map_cons, List.nodup_cons] at h
      by_cases hk : e.1 = k
      · subst hk
        simpa [mapSet, mapKeys] using h
      · simp only [mapSet, hk, if_false, mapKeys, List.map_cons, List.nodup_cons]
        refine ⟨fun hmem => ?_, ih h.2⟩
        rcases (mem_mapKeys_mapSet rest k v e.1).1 hmem with h1 | h1
        · exact hk h1
        · exact h.1 h1

theorem mem_mapKeys_mapDelete (m : List (String × Nat)) (k : String)
    (x : String) : x ∈ mapKeys (mapDelete m k) ↔ x ≠ k ∧ x ∈ mapKeys m := by
  simp only [mapKeys, mapDelete, List.mem_map, List.mem_filter]
  constructor
  · rintro ⟨e, ⟨hem, hek⟩, rfl⟩
    exact ⟨by simpa using hek, ⟨e, hem, rfl⟩⟩
  · rintro ⟨hxk, e, hem, rfl⟩
    exact ⟨e, ⟨hem, by simpa using hxk⟩, rfl⟩

theorem nodup_mapKeys_mapDelete (m : List (String × Nat)) (k : String)
    (h : (mapKeys m).Nodup) : (mapKeys (mapDelete m k)).Nodup := by
  have hsub : (mapKeys (mapDelete m k)).Sublist (mapKeys m) :=
    (List.filter_sublist m).map Prod.fst
  exact h.sublist hsub

/-! ### Small structural lemmas about the operations -/

theorem subscribe_fst (s : Client) (p : String) (cb : Nat) :
    (subscribe s p cb).1 = { s with subscribers := mapSet s.subscribers p cb } := by
  by_cases h : s.ws = some ReadyState.OPEN <;> simp [subscribe, h]

theorem unsubHandle_fst (s : Client) (p : String) :
    (unsubHandle s p).1 = { s with subscribers := mapDelete s.subscribers p } := by
  by_cases h : s.ws = some ReadyState.OPEN <;> simp [unsubHandle, h]

theorem updateStatus_fst (raises : Nat → WebSocketState → Bool) (s : Client)
    (ns : WebSocketState) :
    (updateStatus raises s ns).1 = { s with currentState := ns } :=
  rfl

theorem handleReconnect_subscribers (raises : Nat → WebSocketState → Bool)
    (s : Client) : (handleReconnect raises s).1.subscribers = s.subscribers := by
  unfold handleReconnect
  split
  · rfl
  · split <;> rfl

theorem startHeartbeat_subscribers (s : Client) (t : Timers) :
    (startHeartbeat s t).1.subscribers = s.subscribers := by
  cases h : s.heartbeatInterval <;> simp [startHeartbeat, h]

theorem startHeartbeat_currentState (s : Client) (t : Timers) :
    (startHeartbeat s t).1.currentState = s.currentState := by
  cases h : s.heartbeatInterval <;> simp [startHeartbeat, h]

theorem startHeartbeat_reconnectAttempts (s : Client) (t : Timers) :
    (startHeartbeat s t).1.reconnectAttempts = s.reconnectAttempts := by
  cases h : s.heartbeatInterval <;> simp [startHeartbeat, h]

theorem startHeartbeat_ws (s : Client) (t : Timers) :
    (startHeartbeat s t).1.ws = s.ws := by
  cases h : s.heartbeatInterval <;> simp [startHeartbeat, h]

theorem subSendsOf_startHeartbeat (s : Client) (t : Timers) :
    subSendsOf (startHeartbeat s t).2.2 = [] := by
  cases h : s.heartbeatInterval <;> simp [startHeartbeat, h, subSendsOf]

/-! ### Claim theorems -/

/-- C1 (counterexample): the claim says a frame that is not parseable as JSON
is discarded by the message handler without raising an exception. On the
code, `JSON.parse` is called with no surrounding try/catch, so on a malformed
frame the handler raises: at the concrete input `Frame.malformed`, from the
freshly initialized client, the handler run ends with an uncaught
exception. -/
theorem c1_malformed_counterexample :
    (onmessage (fun _ _ => false) initClient Frame.malformed).exn ≠ none := by
  decide

/-- C1 (amended): on a frame whose payload is not parseable as structured
JSON, the handler performs no effect and leaves every field of the client —
connection state, subscription registry, reconnect counter — unchanged, but
the `JSON.parse` exception propagates out of the handler uncaught. -/
theorem c1_malformed_amended (tickSem : Nat → TickerData → Bool) (s : Client) :
    (onmessage tickSem s Frame.malformed).client = s ∧
    (onmessage tickSem s Frame.malformed).effects = [] ∧
    (onmessage tickSem s Frame.malformed).exn.isSome = true :=
  ⟨rfl, rfl, rfl⟩

/-- C3: the reconnect decision path. Below the cap of 5 the counter is
incremented, the state becomes `RECONNECTING` and exactly one `connect` is
scheduled after `1000 * (new counter)` ms; at the cap nothing is scheduled,
the counter is unchanged, the state ends `DISCONNECTED`, and when it already
was `DISCONNECTED` the call changes nothing at all. -/
theorem c3_reconnect_decision (raises : Nat → WebSocketState → Bool)
    (s : Client) :
    (s.reconnectAttempts < maxReconnectAttempts →
      (handleReconnect raises s).1.reconnectAttempts = s.reconnectAttempts + 1 ∧
      (handleReconnect raises s).1.currentState = WebSocketState.RECONNECTING ∧
      schedulesOf (handleReconnect raises s).2 =
        [reconnectDelay * (s.reconnectAttempts + 1)]) ∧
    (¬ s.reconnectAttempts < maxReconnectAttempts →
      schedulesOf (handleReconnect raises s).2 = [] ∧
      (handleReconnect raises s).1.currentState = WebSocketState.DISCONNECTED ∧
      (handleReconnect raises s).1.reconnectAttempts = s.reconnectAttempts ∧
      (s.currentState = WebSocketState.DISCONNECTED →
        handleReconnect raises s = (s, []))) := by
  constructor
  · intro h
    unfold handleReconnect
    rw [if_pos h]
    refine ⟨rfl, rfl, ?_⟩
    rw [schedulesOf_append, schedulesOf_updateStatus]
    rfl
  · intro h
    unfold handleReconnect
    rw [if_neg h]
    by_cases hst : s.currentState = WebSocketState.DISCONNECTED
    · rw [if_neg (by simp [hst])]
      exact ⟨rfl, hst, rfl, fun _ => rfl⟩
    · rw [if_pos (by simp [hst])]
      exact ⟨schedulesOf_updateStatus raises s _, rfl, rfl, fun hd => absurd hd hst⟩

/-- A client with two reconnect attempts used up. -/
def clientAfterTwoAttempts : Client :=
  { initClient with reconnectAttempts := 2 }

/-- A disconnected client whose reconnect budget is exhausted. -/
def exhaustedClient : Client :=
  { initClient with reconnectAttempts := 5, currentState := WebSocketState.DISCONNECTED }

/-- C3 witness: at counter 2 the path increments to 3, goes to
`RECONNECTING` and schedules after 3000 ms; at counter 5 nothing is
scheduled and a `DISCONNECTED` client is left untouched. -/
theorem c3_reconnect_decision_witness :
    ((handleReconnect (fun _ _ => false)
        clientAfterTwoAttempts).1.reconnectAttempts = 3 ∧
      schedulesOf (handleReconnect (fun _ _ => false)
        clientAfterTwoAttempts).2 = [3000]) ∧
    handleReconnect (fun _ _ => false) exhaustedClient = (exhaustedClient, []) := by
  refine ⟨?_, ?_⟩
  · have h := (c3_reconnect_decision (fun _ _ => false)
      clientAfterTwoAttempts).1 (by decide)
    exact ⟨h.1, h.2.2⟩
  · exact ((c3_reconnect_decision (fun _ _ => false)
      exhaustedClient).2 (by decide)).2.2.2 rfl

/-- C8: `onStatusChange` appends the callback only when not already present
(identity comparison), leaves everything else untouched, and synchronously
invokes that callback exactly once with the current state; when the callback
throws, the exception is caught and reported (the call still returns
normally with the same observable updates). -/
theorem c8_onStatusChange (raises : Nat → WebSocketState → Bool) (s : Client)
    (cb : Nat) :
    (onStatusChange raises s cb).1.statusCallbacks =
      (if s.statusCallbacks.contains cb then s.statusCallbacks
        else s.statusCallbacks ++ [cb]) ∧
    (onStatusChange raises s cb).1.currentState = s.currentState ∧
    (onStatusChange raises s cb).1.subscribers = s.subscribers ∧
    (onStatusChange raises s cb).1.reconnectAttempts = s.reconnectAttempts ∧
    statusInvokesOf (onStatusChange raises s cb).2 = [(cb, s.currentState)] ∧
    (onStatusChange raises s cb).2 =
      Effect.invokeStatus cb s.currentState ::
        (if raises cb s.currentState then
          [Effect.reportError "Error in initial status callback:"] else []) := by
  by_cases hmem : cb ∈ s.statusCallbacks <;>
    by_cases hr : raises cb s.currentState <;>
      simp [onStatusChange, statusInvokesOf, hmem, hr]

/-- C9: `updateStatus` stores the new state and synchronously invokes every
registered observer, in registration order, with the new state — the
equation holds for every exception behaviour `raises` of the observers, so a
throwing observer (whose exception is caught and reported) never prevents
delivery to the observers after it, and never disturbs the stored state, the
registry, or the observer list. -/
theorem c9_updateStatus_broadcast (raises : Nat → WebSocketState → Bool)
    (s : Client) (ns : WebSocketState) :
    (updateStatus raises s ns).1.currentState = ns ∧
    (updateStatus raises s ns).1.statusCallbacks = s.statusCallbacks ∧
    (updateStatus raises s ns).1.subscribers = s.subscribers ∧
    (updateStatus raises s ns).1.reconnectAttempts = s.reconnectAttempts ∧
    statusInvokesOf (updateStatus raises s ns).2 =
      s.statusCallbacks.map (fun cb => (cb, ns)) :=
  ⟨rfl, rfl, rfl, rfl, statusInvokesOf_updateStatus raises s ns⟩

/-- C10 (implicit): the unsubscribe handle is keyed by the topic captured at
subscribe time, not by the callback it registered: after `subscribe t cb1`
and then `subscribe t cb2`, the registry holds `cb2` under `t`, and invoking
the first handle (which only captured `t`) deletes the key `t`, cancelling
the newer `cb2` subscription. -/
theorem c10_handle_keyed_by_topic (s : Client) (t : String) (cb1 cb2 : Nat) :
    mapGet ((subscribe ((subscribe s t cb1).1) t cb2).1).subscribers t =
      some cb2 ∧
    mapGet ((unsubHandle ((subscribe ((subscribe s t cb1).1) t cb2).1) t).1).subscribers t
      = none := by
  rw [unsubHandle_fst, subscribe_fst, subscribe_fst]
  exact ⟨mapGet_mapSet_self _ t cb2, mapGet_mapDelete_self _ t⟩

/-- A ticker-callback semantics in which every invocation throws. -/
def throwingTicker : Nat → TickerData → Bool := fun _ _ => true

/-- A fresh client holding one registered ticker subscriber for topic a. -/
def clientWithSub : Client := { initClient with subscribers := [("a", 0)] }

/-- A well-formed inbound ticker frame for topic a. -/
def tickerFrameA : Frame :=
  Frame.parsed (some "ticker") (some "a") (some "1") none none none none none

/-- C2 (counterexample): the claim says an exception from a consumer ticker
callback is caught inside the message handler and reported. On the code the
callback invocation has no surrounding try/catch: with a registered
subscriber for topic a whose callback throws, the handler run on a ticker
frame for a ends with an uncaught exception escaping the handler. -/
theorem c2_callback_exception_counterexample :
    (onmessage throwingTicker clientWithSub tickerFrameA).exn ≠ none := by
  decide

/-- C2 (amended): the message handler never writes any client field, so a
throwing ticker callback leaves the registry, the connection state and the
reconnect counter unchanged and cannot corrupt the routing of subsequent
frames; but its exception is neither caught nor reported — it propagates out
of the message handler. -/
theorem c2_callback_exception_amended (tickSem : Nat → TickerData → Bool)
    (s : Client) :
    (∀ f, (onmessage tickSem s f).client = s) ∧
    (∀ p cb pr tm v24 l24 h24 o24, mapGet s.subscribers p = some cb →
      truthyStr (some p) = true →
      tickSem cb ⟨pr, tm, some p, v24, l24, h24, o24⟩ = true →
      (onmessage tickSem s
        (Frame.parsed (some "ticker") (some p) pr tm v24 l24 h24 o24)).exn
        ≠ none) := by
  constructor
  · intro f
    cases f with
    | malformed => rfl
    | parsed ty pid pr tm v24 l24 h24 o24 =>
        unfold onmessage
        repeat' split
        all_goals try rfl
        all_goals dsimp only
        all_goals split <;> rfl
  · intro p cb pr tm v24 l24 h24 o24 hget htr hsem
    simp [onmessage, htr, hget, hsem]

/-- C2 witness: the amended theorem applied to the concrete throwing
subscriber. -/
theorem c2_callback_exception_amended_witness :
    (onmessage throwingTicker clientWithSub tickerFrameA).client =
      clientWithSub ∧
    (onmessage throwingTicker clientWithSub tickerFrameA).exn ≠ none := by
  refine ⟨(c2_callback_exception_amended throwingTicker clientWithSub).1
    tickerFrameA, ?_⟩
  exact (c2_callback_exception_amended throwingTicker clientWithSub).2
    "a" 0 (some "1") none none none none none (by decide) (by decide) rfl

/-- A connected client holding one registered subscriber for topic a. -/
def openClientWithSub : Client :=
  { initClient with ws := some ReadyState.OPEN, subscribers := [("a", 0)] }

/-- C6 (counterexample): the claim says the second invocation of an
unsubscribe handle is a no-op with no further effect. On the code the
returned closure always re-sends the unsubscribe request when the transport
is open: invoking the handle for topic a twice on a connected client makes
the second invocation send another unsubscribe message. -/
theorem c6_unsub_handle_counterexample :
    (unsubHandle (unsubHandle openClientWithSub "a").1 "a").2 =
      [Effect.send (OutMsg.unsubscribeMsg ["a"])] := by
  decide

/-- C6 (amended): invoking the handle removes the topic from the registry
and, when the transport is open, sends one unsubscribe request; a second
invocation leaves the registry unchanged (the topic is already absent), but
when the transport is open it sends another unsubscribe request rather than
having no effect (when not open, the second call has no effect). -/
theorem c6_unsub_handle_amended (s : Client) (t : String) :
    mapGet (unsubHandle s t).1.subscribers t = none ∧
    (unsubHandle s t).2 =
      (if s.ws = some ReadyState.OPEN then
        [Effect.send (OutMsg.unsubscribeMsg [t])] else []) ∧
    (unsubHandle (unsubHandle s t).1 t).1 = (unsubHandle s t).1 ∧
    (unsubHandle (unsubHandle s t).1 t).2 =
      (if s.ws = some ReadyState.OPEN then
        [Effect.send (OutMsg.unsubscribeMsg [t])] else []) := by
  refine ⟨?_, ?_, ?_, ?_⟩
  · rw [unsubHandle_fst]
    exact mapGet_mapDelete_self _ t
  · by_cases h : s.ws = some ReadyState.OPEN <;> simp [unsubHandle, h]
  · rw [unsubHandle_fst, unsubHandle_fst]
    simp [mapDelete_mapDelete]
  · rw [unsubHandle_fst]
    by_cases h : s.ws = some ReadyState.OPEN <;> simp [unsubHandle, h]

/-- A connected client with the heartbeat interval handle 0 stored. -/
def connectedClientHb : Client :=
  { initClient with ws := some ReadyState.OPEN,
                    currentState := WebSocketState.CONNECTED,
                    heartbeatInterval := some 0 }

/-- Timer environment in which interval 0 (the heartbeat) is active. -/
def activeHbTimers : Timers := { nextId := 1, active := [0] }

/-- C7 (counterexample): the claim says the heartbeat timer is stopped
synchronously whenever the connection leaves the `Connected` state,
including on a transport error event. On the code the `onerror` handler only
reports and transitions to `ERROR`; it never clears the interval: after an
error event on a connected client with an active heartbeat, the state has
left `Connected` but the heartbeat timer is still active. -/
theorem c7_heartbeat_counterexample :
    (onerror (fun _ _ => false)
        ⟨connectedClientHb, activeHbTimers⟩).1.client.currentState =
      WebSocketState.ERROR ∧
    (onerror (fun _ _ => false)
        ⟨connectedClientHb, activeHbTimers⟩).1.timers = activeHbTimers := by
  decide

theorem timers_active_nil_of_none (s : Client) (t : Timers)
    (hinv : ∀ id ∈ t.active, s.heartbeatInterval = some id)
    (hhb : s.heartbeatInterval = none) : t.active = [] := by
  rcases hact : t.active with _ | ⟨a, as⟩
  · rfl
  · have := hinv a (by rw [hact]; exact List.mem_cons_self a as)
    rw [hhb] at this
    exact absurd this (by simp)

theorem clearIntervalT_nextId (t : Timers) (id : Nat) :
    (clearIntervalT t id).nextId = t.nextId :=
  rfl

theorem clearIntervalT_active_nil (t : Timers) (id : Nat)
    (h : ∀ x ∈ t.active, x = id) : (clearIntervalT t id).active = [] := by
  simp only [clearIntervalT]
  rw [List.filter_eq_nil_iff]
  intro a ha
  simp [h a ha]

/-- C7 (amended): under the invariant that every active interval timer is
the one whose handle the client stores, the heartbeat timer is stopped
synchronously on a transport close event and on manual `close()`, and
starting a new heartbeat first cancels any prior timer so that exactly one
heartbeat timer is active afterwards. (On a transport error event the timer
is not stopped — the code defers that to the subsequent close event.) -/
theorem c7_heartbeat_amended (raises : Nat → WebSocketState → Bool)
    (s : Client) (t : Timers)
    (hinv : ∀ id ∈ t.active, s.heartbeatInterval = some id) :
    (onclose raises ⟨s, t⟩).1.timers.active = [] ∧
    (close s t).2.1.active = [] ∧
    (startHeartbeat s t).2.1.active = [t.nextId] := by
  cases hhb : s.heartbeatInterval with
  | none =>
      have hact := timers_active_nil_of_none s t hinv hhb
      refine ⟨?_, ?_, ?_⟩
      · simp [onclose, hhb, hact]
      · cases hws : s.ws <;> simp [close, hhb, hws, hact]
      · simp [startHeartbeat, hhb, setIntervalT, hact]
  | some id =>
      have hall : ∀ x ∈ t.active, x = id := by
        intro x hx
        have := hinv x hx
        rw [hhb] at this
        exact (Option.some_injective _ this).symm
      have hcl := clearIntervalT_active_nil t id hall
      refine ⟨?_, ?_, ?_⟩
      · simp [onclose, hhb, hcl]
      · cases hws : s.ws <;> simp [close, hhb, hws, hcl]
      · simp [startHeartbeat, hhb, setIntervalT, hcl, clearIntervalT_nextId]

/-- C7 witness: the amended theorem applied to the connected client with
active heartbeat timer 0. -/
theorem c7_heartbeat_amended_witness :
    (onclose (fun _ _ => false)
        ⟨connectedClientHb, activeHbTimers⟩).1.timers.active = [] ∧
    (close connectedClientHb activeHbTimers).2.1.active = [] ∧
    (startHeartbeat connectedClientHb activeHbTimers).2.1.active = [1] := by
  exact c7_heartbeat_amended (fun _ _ => false) connectedClientHb
    activeHbTimers (by decide)

/-! ### C4: registry replay on the open event -/

theorem onopen_currentState (raises : Nat → WebSocketState → Bool) (sys : Sys) :
    (onopen raises sys).1.client.currentState = WebSocketState.CONNECTED := by
  simp only [onopen]
  rw [startHeartbeat_currentState]
  rfl

theorem onopen_reconnectAttempts (raises : Nat → WebSocketState → Bool)
    (sys : Sys) : (onopen raises sys).1.client.reconnectAttempts = 0 := by
  simp only [onopen]
  rw [startHeartbeat_reconnectAttempts]

theorem onopen_subscribers (raises : Nat → WebSocketState → Bool) (sys : Sys) :
    (onopen raises sys).1.client.subscribers = sys.client.subscribers := by
  simp only [onopen]
  rw [startHeartbeat_subscribers]
  rfl

theorem subSendsOf_subscribeToProducts (s : Client)
    (hws : s.ws = some ReadyState.OPEN) :
    subSendsOf (subscribeToProducts s) =
      (if mapKeys s.subscribers = [] then [] else [mapKeys s.subscribers]) := by
  by_cases hk : mapKeys s.subscribers = [] <;>
    simp [subscribeToProducts, hws, hk, subSendsOf, List.length_pos]

theorem onopen_subSends (raises : Nat → WebSocketState → Bool) (sys : Sys) :
    subSendsOf (onopen raises sys).2 =
      (if mapKeys sys.client.subscribers = [] then []
        else [mapKeys sys.client.subscribers]) := by
  simp only [onopen]
  rw [subSendsOf_append, subSendsOf_append, subSendsOf_updateStatus,
    subSendsOf_startHeartbeat, subSendsOf_subscribeToProducts _ rfl]
  simp only [List.nil_append, List.append_nil]
  rfl

/-- The system before the very first connection attempt: fresh client, no
timer allocated yet. -/
def freshSys : Sys := ⟨initClient, ⟨0, []⟩⟩

/-- C4 (counterexample): the claim says every transport open event replays
the registry as one single batched subscribe message. When the registry is
empty the code sends no subscribe message at all (`products.length > 0`
guard): on an open event for a client with an empty registry, zero subscribe
messages are sent, not one. -/
theorem c4_open_replay_counterexample :
    subSendsOf (onopen (fun _ _ => false) freshSys).2 = [] := by
  decide

/-- C4 (amended): on every transport open event the state is set to
`Connected` and the reconnect counter is reset to 0; when the registry is
nonempty it is replayed as exactly one batched subscribe message whose
product ids are the registry keys, each registered topic exactly once; when
the registry is empty no subscribe message is sent. -/
theorem c4_open_replay_amended (raises : Nat → WebSocketState → Bool)
    (sys : Sys) (hnodup : (mapKeys sys.client.subscribers).Nodup) :
    (onopen raises sys).1.client.currentState = WebSocketState.CONNECTED ∧
    (onopen raises sys).1.client.reconnectAttempts = 0 ∧
    (onopen raises sys).1.client.subscribers = sys.client.subscribers ∧
    subSendsOf (onopen raises sys).2 =
      (if mapKeys sys.client.subscribers = [] then []
        else [mapKeys sys.client.subscribers]) ∧
    ∀ ids ∈ subSendsOf (onopen raises sys).2, ids.Nodup := by
  refine ⟨onopen_currentState raises sys, onopen_reconnectAttempts raises sys,
    onopen_subscribers raises sys, onopen_subSends raises sys, ?_⟩
  rw [onopen_subSends raises sys]
  by_cases hk : mapKeys sys.client.subscribers = [] <;> simp [hk, hnodup]

/-- A system with two registered topics, a then b. -/
def twoSubSys : Sys := ⟨{ initClient with subscribers := [("a", 0), ("b", 1)] }, ⟨0, []⟩⟩

/-- C4 witness: the amended theorem at the two-topic system: the open event
replays both topics in one batched message. -/
theorem c4_open_replay_amended_witness :
    (onopen (fun _ _ => false) twoSubSys).1.client.currentState =
      WebSocketState.CONNECTED ∧
    (onopen (fun _ _ => false) twoSubSys).1.client.reconnectAttempts = 0 ∧
    (onopen (fun _ _ => false) twoSubSys).1.client.subscribers =
      twoSubSys.client.subscribers ∧
    subSendsOf (onopen (fun _ _ => false) twoSubSys).2 =
      (if mapKeys twoSubSys.client.subscribers = [] then []
        else [mapKeys twoSubSys.client.subscribers]) ∧
    ∀ ids ∈ subSendsOf (onopen (fun _ _ => false) twoSubSys).2, ids.Nodup := by
  exact c4_open_replay_amended (fun _ _ => false) twoSubSys (by decide)

/-! ### C5: the registry key set over arbitrary event sequences -/

/-- External stimuli applied to the client: an API `subscribe` call, an
invocation of the unsubscribe handle previously returned for a topic, and
the three transport events. -/
inductive Ev where
  | subEv (topic : String) (cb : Nat)
  | unsubEv (topic : String)
  | openEv
  | errorEv
  | closeEv
deriving DecidableEq, Repr

/-- Apply one stimulus to the system, by the corresponding source method. -/
def step (raises : Nat → WebSocketState → Bool) (sys : Sys) :
    Ev → Sys × List Effect
  | Ev.subEv t cb =>
      let r := subscribe sys.client t cb
      (⟨r.1, sys.timers⟩, r.2)
  | Ev.unsubEv t =>
      let r := unsubHandle sys.client t
      (⟨r.1, sys.timers⟩, r.2)
  | Ev.openEv => onopen raises sys
  | Ev.errorEv => onerror raises sys
  | Ev.closeEv => onclose raises sys

/-- Run a sequence of stimuli. -/
def runEvents (raises : Nat → WebSocketState → Bool) (sys : Sys) :
    List Ev → Sys
  | [] => sys
  | e :: rest => runEvents raises (step raises sys e).1 rest

/-- Modelled from the spec: one step of the set of currently interested
topics — a subscribe adds the topic, invoking the unsubscribe handle removes
it, transport events do not change it. -/
def specStep (acc : Finset String) : Ev → Finset String
  | Ev.subEv t _ => insert t acc
  | Ev.unsubEv t => acc.erase t
  | Ev.openEv => acc
  | Ev.errorEv => acc
  | Ev.closeEv => acc

/-- Modelled from the spec: the set of topics subscribed and not
subsequently unsubscribed, over a stimulus sequence. -/
def specTopics (acc : Finset String) : List Ev → Finset String
  | [] => acc
  | e :: rest => specTopics (specStep acc e) rest

theorem toFinset_mapKeys_mapSet (m : List (String × Nat)) (k : String)
    (v : Nat) :
    (mapKeys (mapSet m k v)).toFinset = insert k (mapKeys m).toFinset := by
  ext x
  simp [mem_mapKeys_mapSet]

theorem toFinset_mapKeys_mapDelete (m : List (String × Nat)) (k : String) :
    (mapKeys (mapDelete m k)).toFinset = (mapKeys m).toFinset.erase k := by
  ext x
  simp [mem_mapKeys_mapDelete, Finset.mem_erase]

theorem onerror_subscribers (raises : Nat → WebSocketState → Bool)
    (sys : Sys) :
    (onerror raises sys).1.client.subscribers = sys.client.subscribers :=
  rfl

theorem onclose_subscribers (raises : Nat → WebSocketState → Bool)
    (sys : Sys) :
    (onclose raises sys).1.client.subscribers = sys.client.subscribers := by
  simp only [onclose]
  rw [handleReconnect_subscribers]
  rfl

theorem step_keyset (raises : Nat → WebSocketState → Bool) (sys : Sys)
    (e : Ev) :
    (mapKeys (step raises sys e).1.client.subscribers).toFinset =
      specStep (mapKeys sys.client.subscribers).toFinset e := by
  cases e with
  | subEv t cb =>
      show (mapKeys ((subscribe sys.client t cb).1).subscribers).toFinset = _
      rw [subscribe_fst]
      exact toFinset_mapKeys_mapSet sys.client.subscribers t cb
  | unsubEv t =>
      show (mapKeys ((unsubHandle sys.client t).1).subscribers).toFinset = _
      rw [unsubHandle_fst]
      exact toFinset_mapKeys_mapDelete sys.client.subscribers t
  | openEv => rw [show (step raises sys Ev.openEv).1 = (onopen raises sys).1 from rfl,
      onopen_subscribers]; rfl
  | errorEv => rfl
  | closeEv => rw [show (step raises sys Ev.closeEv).1 = (onclose raises sys).1 from rfl,
      onclose_subscribers]; rfl

theorem step_nodup (raises : Nat → WebSocketState → Bool) (sys : Sys) (e : Ev)
    (h : (mapKeys sys.client.subscribers).Nodup) :
    (mapKeys (step raises sys e).1.client.subscribers).Nodup := by
  cases e with
  | subEv t cb =>
      show (mapKeys ((subscribe sys.client t cb).1).subscribers).Nodup
      rw [subscribe_fst]
      exact nodup_mapKeys_mapSet sys.client.subscribers t cb h
  | unsubEv t =>
      show (mapKeys ((unsubHandle sys.client t).1).subscribers).Nodup
      rw [unsubHandle_fst]
      exact nodup_mapKeys_mapDelete sys.client.subscribers t h
  | openEv => rw [show (step raises sys Ev.openEv).1 = (onopen raises sys).1 from rfl,
      onopen_subscribers]; exact h
  | errorEv => exact h
  | closeEv => rw [show (step raises sys Ev.closeEv).1 = (onclose raises sys).1 from rfl,
      onclose_subscribers]; exact h

/-- C5: for every sequence of subscribe calls, unsubscribe-handle calls and
transport events, the registry key set equals exactly the set of topics
subscribed and not subsequently unsubscribed (transport open, error and
close events never change the registry), and the keys stay duplicate-free —
a later subscribe on the same topic replaces the entry rather than adding a
second one. -/
theorem c5_registry_keyset (raises : Nat → WebSocketState → Bool)
    (evs : List Ev) (sys : Sys)
    (hnodup : (mapKeys sys.client.subscribers).Nodup) :
    (mapKeys (runEvents raises sys evs).client.subscribers).toFinset =
      specTopics (mapKeys sys.client.subscribers).toFinset evs ∧
    (mapKeys (runEvents raises sys evs).client.subscribers).Nodup := by
  induction evs generalizing sys with
  | nil => exact ⟨rfl, hnodup⟩
  | cons e rest ih =>
      have h2 := step_nodup raises sys e hnodup
      have hrec := ih (step raises sys e).1 h2
      simp only [runEvents, specTopics]
      exact ⟨by rw [← step_keyset raises sys e]; exact hrec.1, hrec.2⟩

/-- A stimulus sequence exercising subscribe, replacement of a callback,
transport close, error and reopen, and an unsubscribe handle. -/
def mixedEvents : List Ev :=
  [Ev.subEv "a" 0, Ev.closeEv, Ev.openEv, Ev.subEv "a" 1, Ev.subEv "b" 2,
    Ev.unsubEv "a", Ev.errorEv]

/-- C5 witness: the registry key-set law applied to a concrete mixed
sequence from the fresh client. -/
theorem c5_registry_keyset_witness :
    (mapKeys (runEvents (fun _ _ => false) freshSys
        mixedEvents).client.subscribers).toFinset =
      specTopics (mapKeys freshSys.client.subscribers).toFinset mixedEvents ∧
    (mapKeys (runEvents (fun _ _ => false) freshSys
        mixedEvents).client.subscribers).Nodup := by
  exact c5_registry_keyset (fun _ _ => false) mixedEvents freshSys (by decide)

end CryptoWS
